import Mathlib

/-!
# Verification of the twitter-marketing-iftt core logic

Shallow embedding of the repository's second (reply-aware) `RTCleaner`
implementation in `src/src/types.ts` and of `TelegramService`
(`src/unnamed/part_000`).  JavaScript strings are embedded as `List Char`
for the classifier and tracker (all the relevant regex character classes
are code-point tests), and as `List Nat` of UTF-16 code units for the
message formatter, where `substring`/`length` operate on code units.
-/

/-! ## JavaScript string primitives -/

/-- The character class of the JavaScript regex escape `\s`, which is also
the set of characters removed by `String.prototype.trim`. -/
def jsWs (c : Char) : Bool :=
  c = ' ' || c = '\t' || c = '\n' || c = '\r' || c = '\x0b' || c = '\x0c' ||
  c = ' ' || c = ' ' || (' ' ≤ c && c ≤ ' ') ||
  c = ' ' || c = ' ' || c = ' ' || c = ' ' || c = '　' || c = '﻿'

/-- The character class of the JavaScript regex escape `\w`: `[A-Za-z0-9_]`. -/
def isWordChar (c : Char) : Bool :=
  c.isAlpha || c.isDigit || c = '_'

/-- The character class `[\w_]` used by two of the source's retweet patterns
(extensionally the same as `\w`, since `\w` already contains `_`). -/
def isWordUs (c : Char) : Bool :=
  isWordChar c || c = '_'

/-- JavaScript `text.trim()`: strip `\s` characters from both ends. -/
def jsTrim (cs : List Char) : List Char :=
  ((cs.dropWhile jsWs).reverse.dropWhile jsWs).reverse

/-- ASCII case folding, modelling `toLowerCase` on the ASCII texts the
reply indicators are compared against. -/
def asciiLower (cs : List Char) : List Char :=
  cs.map fun c => if 'A' ≤ c && c ≤ 'Z' then Char.ofNat (c.toNat + 32) else c

/-- `needle` occurs at the head of `hay`. -/
def segAt : List Char → List Char → Bool
  | [], _ => true
  | _ :: _, [] => false
  | a :: as, b :: bs => a = b && segAt as bs

/-- JavaScript `hay.includes(needle)`: `needle` occurs contiguously in `hay`. -/
def containsSeg (needle : List Char) : List Char → Bool
  | [] => needle.isEmpty
  | b :: bs => segAt needle (b :: bs) || containsSeg needle bs

/-! ## Regex building blocks

Each source pattern is anchored (`^`) and built from the pieces `RT` (under
the `i` flag), `\s*`, `\s+`, `@`, `\w+`, `[\w_]+`, `:` and a final `\s`.
In every pattern the character following a starred/plussed class is outside
that class (`:` and `@` are neither word characters nor whitespace, and
`\s ∩ \w = ∅`), so the regexes are matched faithfully by maximal-munch
consumption with no backtracking.
-/

/-- Consume `\s*`. -/
def wsStar (cs : List Char) : List Char := cs.dropWhile jsWs

/-- Consume `\s+` (at least one whitespace character). -/
def wsPlus : List Char → Option (List Char)
  | [] => none
  | c :: rest => if jsWs c then some (rest.dropWhile jsWs) else none

/-- Consume a literal `@`. -/
def atHead : List Char → Option (List Char)
  | c :: rest => if c = '@' then some rest else none
  | [] => none

/-- Consume `\w+`. -/
def wordPlus : List Char → Option (List Char)
  | [] => none
  | c :: rest => if isWordChar c then some (rest.dropWhile isWordChar) else none

/-- Consume `[\w_]+`. -/
def wordUsPlus : List Char → Option (List Char)
  | [] => none
  | c :: rest => if isWordUs c then some (rest.dropWhile isWordUs) else none

/-- Test for a literal `:` at the head. -/
def colonHead : List Char → Bool
  | c :: _ => c = ':'
  | [] => false

/-- Test for a `\s` character at the head. -/
def wsHead : List Char → Bool
  | c :: _ => jsWs c
  | [] => false

/-- Consume the token `RT` under the case-insensitive flag. -/
def matchRT : List Char → Option (List Char)
  | c1 :: c2 :: rest =>
    if (c1 = 'R' || c1 = 'r') && (c2 = 'T' || c2 = 't') then some rest else none
  | _ => none

/-! ## Classifier (`RTCleaner.isRetweet`, lines 418-441; `RTCleaner.isReply`,
lines 446-479 of `src/src/types.ts`) -/

/-- `/^RT\s*@\w+:/i` -/
def rtPat1 (cs : List Char) : Bool :=
  match ((matchRT cs).map wsStar).bind atHead |>.bind wordPlus with
  | some r => colonHead r
  | none => false

/-- `/^RT\s+@\w+\s*:/i` -/
def rtPat2 (cs : List Char) : Bool :=
  match ((matchRT cs).bind wsPlus).bind atHead |>.bind wordPlus with
  | some r => colonHead (wsStar r)
  | none => false

/-- `/^rt\s*@\w+:/i` (same matcher as `rtPat1` under the `i` flag) -/
def rtPat3 (cs : List Char) : Bool :=
  match ((matchRT cs).map wsStar).bind atHead |>.bind wordPlus with
  | some r => colonHead r
  | none => false

/-- `/^rt\s+@\w+\s*:/i` (same matcher as `rtPat2` under the `i` flag) -/
def rtPat4 (cs : List Char) : Bool :=
  match ((matchRT cs).bind wsPlus).bind atHead |>.bind wordPlus with
  | some r => colonHead (wsStar r)
  | none => false

/-- `/^RT\s*@[\w_]+:/i` -/
def rtPat5 (cs : List Char) : Bool :=
  match ((matchRT cs).map wsStar).bind atHead |>.bind wordUsPlus with
  | some r => colonHead r
  | none => false

/-- `/^rt\s*@[\w_]+:/i` -/
def rtPat6 (cs : List Char) : Bool :=
  match ((matchRT cs).map wsStar).bind atHead |>.bind wordUsPlus with
  | some r => colonHead r
  | none => false

/-- `/^RT\s*@\w+\s+/i` -/
def rtPat7 (cs : List Char) : Bool :=
  match ((matchRT cs).map wsStar).bind atHead |>.bind wordPlus with
  | some r => wsHead r
  | none => false

/-- `/^rt\s*@\w+\s+/i` -/
def rtPat8 (cs : List Char) : Bool :=
  match ((matchRT cs).map wsStar).bind atHead |>.bind wordPlus with
  | some r => wsHead r
  | none => false

/-- `RTCleaner.isRetweet`: `undefined` and the empty string are falsy and
return `false` at the guard; otherwise the trimmed text is tested against
the eight anchored patterns. -/
def isRetweet : Option (List Char) → Bool
  | none => false
  | some t =>
    if t.isEmpty then false
    else
      let cleanText := jsTrim t
      rtPat1 cleanText || rtPat2 cleanText || rtPat3 cleanText || rtPat4 cleanText ||
      rtPat5 cleanText || rtPat6 cleanText || rtPat7 cleanText || rtPat8 cleanText

/-- `/^@\w+/i` -/
def rpPat1 (cs : List Char) : Bool :=
  ((atHead cs).bind wordPlus).isSome

/-- `/^@[\w_]+/i` -/
def rpPat2 (cs : List Char) : Bool :=
  ((atHead cs).bind wordUsPlus).isSome

/-- `/^@\w+\s/i` -/
def rpPat3 (cs : List Char) : Bool :=
  match (atHead cs).bind wordPlus with
  | some r => wsHead r
  | none => false

/-- `/^@[\w_]+\s/i` -/
def rpPat4 (cs : List Char) : Bool :=
  match (atHead cs).bind wordUsPlus with
  | some r => wsHead r
  | none => false

/-- The secondary reply indicators searched for in the lowercased text. -/
def replyIndicators : List (List Char) :=
  [("replying to").toList, ("in reply to").toList, ("responding to").toList]

/-- `RTCleaner.isReply`: falsy text returns `false`; otherwise the trimmed
text is tested for a leading mention or, lowercased, for one of the
indicator substrings. -/
def isReply : Option (List Char) → Bool
  | none => false
  | some t =>
    if t.isEmpty then false
    else
      let cleanText := jsTrim t
      let isReplyByMention :=
        rpPat1 cleanText || rpPat2 cleanText || rpPat3 cleanText || rpPat4 cleanText
      let hasReplyIndicator :=
        replyIndicators.any fun indicator => containsSeg indicator (asciiLower cleanText)
      isReplyByMention || hasReplyIndicator

/-- The derived category of a record's text.  The precedence mirrors both
call sites: `sendNewTweets` rejects retweets before replies, and
`deleteRetweetAndReplyRecords` counts a record as a reply only when
`isReply(text) && !isRetweet(text)`. -/
inductive Category where
  | Original
  | Retweet
  | Reply
deriving DecidableEq

/-- Classification as specified: Retweet first, then Reply, else Original. -/
def classify (text : Option (List Char)) : Category :=
  if isRetweet text then Category.Retweet
  else if isReply text then Category.Reply
  else Category.Original

/-! ## Spec-side pattern definitions (for the refinement claims C2 and C3)

These two definitions follow the specification's words, to be compared
with the source-derived matchers above. -/

/-- Modelled from the spec's words: the trimmed text, case-insensitively,
begins with the token `RT`, optionally followed by whitespace, then an
`@handle` of word characters, then either a colon optionally surrounded by
whitespace, or at least one trailing whitespace character. -/
def rtSpecPattern (cs : List Char) : Bool :=
  match ((matchRT cs).map wsStar).bind atHead |>.bind wordPlus with
  | some r => colonHead (wsStar r) || wsHead r
  | none => false

/-- Modelled from the spec's words: the trimmed text begins with an
`@handle` mention, or the lowercased (trimmed) text contains one of the
substrings "replying to", "in reply to", "responding to". -/
def replySpecCond (cs : List Char) : Bool :=
  ((atHead (jsTrim cs)).bind wordPlus).isSome ||
  replyIndicators.any fun indicator => containsSeg indicator (asciiLower (jsTrim cs))

/-! ## Records and the notification filter (`RTCleaner.sendNewTweets`,
lines 484-547 of `src/src/types.ts`) -/

/-- The projection of a fetched Airtable record used by the filter:
`record.id` and `record.get('Text')`.  A missing `Text` field is `none`. -/
structure FetchedRecord where
  id : String
  text : Option (List Char)
deriving DecidableEq

/-- JavaScript truthiness of the optional text: `undefined` and the empty
string are falsy. -/
def textTruthy : Option (List Char) → Bool
  | none => false
  | some t => !t.isEmpty

/-- The filter of `sendNewTweets` (lines 499-517): drop retweets, drop
replies, then keep only unsent records with truthy text. -/
def filterNewTweets (sent : List String) (records : List FetchedRecord) :
    List FetchedRecord :=
  records.filter fun record =>
    if isRetweet record.text then false
    else if isReply record.text then false
    else !(decide (record.id ∈ sent)) && textTruthy record.text

/-- `this.sentTweets.add(record.id)` on the JavaScript `Set` (insertion
order preserved, no duplicates). -/
def markSent (sent : List String) (id : String) : List String :=
  if id ∈ sent then sent else sent ++ [id]

/-- The `newTweets.forEach(record => this.sentTweets.add(record.id))` loop
(lines 538-540). -/
def markBatchSent (sent : List String) (batch : List FetchedRecord) : List String :=
  batch.foldl (fun s record => markSent s record.id) sent

/-! ## SentTracker persistence (`loadSentTweets` lines 327-363,
`rotateSentTweetsFile` lines 365-389, `saveSentTweets` lines 391-413) -/

/-- One persisted entry of `sent-tweets.json`; `sentAt` is the epoch
timestamp in milliseconds (how JavaScript `Date` comparison evaluates). -/
structure SentEntry where
  recordId : String
  sentAt : Int
deriving DecidableEq

/-- The retention window: `6 * 60 * 60 * 1000` milliseconds. -/
def retentionMs : Int := 6 * 60 * 60 * 1000

/-- `fileSizeMB > 10` with `fileSizeMB = stats.size / (1024 * 1024)` is
equivalent to `stats.size > 10 * 1024 * 1024` on integer byte counts
(the double division is exact enough near the threshold). -/
def rotationThresholdBytes : Nat := 10 * 1024 * 1024

/-- The main persisted file, abstracted to its byte size and the outcome of
`readFileSync` followed by `JSON.parse` (`Except.error` when either one of
the two external calls throws). -/
structure FileData where
  size : Nat
  parse : Except String (List SentEntry)

/-- The working directory: the optional `sent-tweets.json` plus the names
of all other files. -/
structure FSState where
  mainFile : Option FileData
  archives : List String

/-- `sent-tweets-${timestamp}.json`, the rotation target name. -/
def archiveFileName (timestamp : String) : String :=
  "sent-tweets-" ++ timestamp ++ ".json"

/-- Consume exactly `n` decimal digits. -/
def digitsExact : Nat → List Char → Option (List Char)
  | 0, cs => some cs
  | n + 1, c :: cs => if c.isDigit then digitsExact n cs else none
  | _ + 1, [] => none

/-- Consume a literal character sequence. -/
def litSeg : List Char → List Char → Option (List Char)
  | [], cs => some cs
  | a :: as, c :: cs => if a = c then litSeg as cs else none
  | _ :: _, [] => none

/-- Consume one expected literal character. -/
def charLit (a : Char) : List Char → Option (List Char)
  | c :: rest => if c = a then some rest else none
  | [] => none

/-- The archive naming convention
`/^sent-tweets-\d{4}-\d{2}-\d{2}T\d{2}-\d{2}-\d{2}\.json$/`. -/
def archiveNameOk (file : String) : Bool :=
  decide ((litSeg ("sent-tweets-").toList file.toList |>.bind (digitsExact 4)
    |>.bind (charLit '-') |>.bind (digitsExact 2)
    |>.bind (charLit '-') |>.bind (digitsExact 2)
    |>.bind (charLit 'T') |>.bind (digitsExact 2)
    |>.bind (charLit '-') |>.bind (digitsExact 2)
    |>.bind (charLit '-') |>.bind (digitsExact 2)
    |>.bind (litSeg (".json").toList)) = some [])

/-- JavaScript default `Array.prototype.sort` comparison on strings:
lexicographic by code unit (the archive names are ASCII, so comparing the
code points is the same). -/
def strLeB (a b : String) : Bool :=
  charListLe a.toList b.toList
where
  charListLe : List Char → List Char → Bool
    | [], _ => true
    | _ :: _, [] => false
    | x :: xs, y :: ys => if x < y then true else if y < x then false else charListLe xs ys

/-- Insert into a sorted list (helper for `sortNames`). -/
def insertSorted (a : String) : List String → List String
  | [] => [a]
  | b :: bs => if strLeB a b then a :: b :: bs else b :: insertSorted a bs

/-- A sort producing the same ascending order as `files.sort()`. -/
def sortNames : List String → List String
  | [] => []
  | a :: as => insertSorted a (sortNames as)

/-- `RTCleaner.rotateSentTweetsFile`: rename `sent-tweets.json` to the
timestamped archive, then list the files matching the naming convention,
sort ascending, reverse, and unlink everything past the five most recent.
When the main file is absent `renameSync` throws and the surrounding catch
leaves the state unchanged. -/
def rotateSentTweetsFile (timestamp : String) (fs : FSState) : FSState :=
  match fs.mainFile with
  | none => fs
  | some _ =>
    let archiveFile := archiveFileName timestamp
    let dirFiles := fs.archives ++ [archiveFile]
    let sortedDesc := (sortNames (dirFiles.filter archiveNameOk)).reverse
    let toRemove := sortedDesc.drop 5
    ⟨none, dirFiles.filter fun f => decide (f ∉ toRemove)⟩

/-- `RTCleaner.loadSentTweets`, returning the in-memory set together with
the resulting directory state.  After a rotation the main file no longer
exists, so `readFileSync` throws and the catch resets the set to empty;
the same catch handles a failing `JSON.parse`.  The 50% discard branch
(lines 348-354) assigns the same in-memory set in both arms and differs
only in writing the pruned entries back to disk, so the returned set does
not depend on it. -/
def loadSentTweets (timestamp : String) (now : Int) (fs : FSState) :
    List String × FSState :=
  match fs.mainFile with
  | none => ([], fs)
  | some fd =>
    let fs1 := if rotationThresholdBytes < fd.size then rotateSentTweetsFile timestamp fs else fs
    match fs1.mainFile with
    | none => ([], fs1)
    | some fd1 =>
      match fd1.parse with
      | Except.error _ => ([], fs1)
      | Except.ok sentTweets =>
        let validTweets := sentTweets.filter fun tweet => decide (now - retentionMs < tweet.sentAt)
        (validTweets.map fun tweet => tweet.recordId, fs1)

/-- `RTCleaner.saveSentTweets`: write the current set as entries stamped
with the time of write, keeping those inside the retention window (a fresh
stamp always is). -/
def saveSentTweets (now : Int) (sent : List String) : List SentEntry :=
  (sent.map fun recordId => SentEntry.mk recordId now).filter fun tweet =>
    decide (now - retentionMs < tweet.sentAt)

/-! ## TelegramService (`src/unnamed/part_000`) -/

/-- The outcome of one `bot.sendMessage` call: resolved, rejected with the
`ETELEGRAM`/HTTP 403 signature tested on line 163, or rejected with any
other error. -/
inductive SendOutcome where
  | delivered
  | forbidden403
  | transientError
deriving DecidableEq

/-- The registry of destination chats (a JavaScript `Set` of chat ids in
insertion order). -/
structure TgState where
  chatIds : List Int
deriving DecidableEq

/-- Adding one discovered chat id if new (the body of the discovery
loops). -/
def addChatId (st : TgState) (chatId : Int) : TgState :=
  if chatId ∈ st.chatIds then st else ⟨st.chatIds ++ [chatId]⟩

/-- `TelegramService.updateChatIds`: add every chat id found in the
backlog of updates. -/
def updateChatIds (discovered : List Int) (st : TgState) : TgState :=
  discovered.foldl addChatId st

/-- `TelegramService.sendTweetNotifications` effect on the chat registry.
An empty batch (or the consequently empty message) returns early; so does
an empty registry after discovery.  Otherwise each chat is messaged inside
its own try/catch: a 403 deletes the chat from the set, any other failure
is only logged, and `Promise.all` over these caught promises never
rejects, so the function is total. -/
def sendTweetNotifications (outcome : Int → SendOutcome) (discovered : List Int)
    (tweets : List FetchedRecord) (st : TgState) : TgState :=
  if tweets.isEmpty then st
  else
    let st1 := updateChatIds discovered st
    if st1.chatIds.isEmpty then st1
    else ⟨st1.chatIds.filter fun chatId => decide (outcome chatId ≠ SendOutcome.forbidden403)⟩

/-- `RTCleaner.sendNewTweets` after the fetch: filter the records, and when
the batch is non-empty dispatch it, mark every batch record sent, and
flush the tracker (`none` = no flush happened).  The result is the new
sent set, the flushed file contents, and the new chat registry. -/
def sendNewTweets (outcome : Int → SendOutcome) (discovered : List Int) (now : Int)
    (records : List FetchedRecord) (sent : List String) (tg : TgState) :
    List String × Option (List SentEntry) × TgState :=
  let newTweets := filterNewTweets sent records
  if newTweets.isEmpty then (sent, none, tg)
  else
    let tg1 := sendTweetNotifications outcome discovered newTweets tg
    let sent1 := markBatchSent sent newTweets
    (sent1, some (saveSentTweets now sent1), tg1)

/-! ## NotificationFormatter (`TelegramService.formatTweetMessage` lines
111-125, `TelegramService.truncateText` lines 127-130)

JavaScript `length` and `substring` operate on UTF-16 code units, so the
formatter is embedded over `List Nat` of code units. -/

/-- The UTF-16 code units matched by `\s`/removed by `trim` (all of them
lie in the basic multilingual plane, hence are single units). -/
def u16Ws (u : Nat) : Bool :=
  u == 32 || u == 9 || u == 10 || u == 13 || u == 11 || u == 12 ||
  u == 160 || u == 5760 || (8192 ≤ u && u ≤ 8202) ||
  u == 8232 || u == 8233 || u == 8239 || u == 8287 || u == 12288 || u == 65279

/-- `text.trim()` at the code-unit level. -/
def u16Trim (text : List Nat) : List Nat :=
  ((text.dropWhile u16Ws).reverse.dropWhile u16Ws).reverse

/-- `TelegramService.truncateText`: texts within the budget are returned
unchanged; longer ones are cut to `maxLength` units and trimmed. -/
def truncateText (text : List Nat) (maxLength : Nat) : List Nat :=
  if text.length ≤ maxLength then text else u16Trim (text.take maxLength)

/-- The rendered excerpt of one entry of `formatTweetMessage`: the
sub-expression `${text}${text.length >= 100 ? '...' : ''}` of line 121
applied to `truncateText(tweet.Text || '', 100)`.  The marker `...` is the
three code units 46, 46, 46. -/
def excerptWithMarker (tweetText : Option (List Nat)) : List Nat :=
  let text := truncateText (tweetText.getD []) 100
  text ++ (if 100 ≤ text.length then [46, 46, 46] else [])

/-- A UTF-16 high (leading) surrogate. -/
def isHighSurrogate (u : Nat) : Bool := 55296 ≤ u && u ≤ 56319

/-- A UTF-16 low (trailing) surrogate. -/
def isLowSurrogate (u : Nat) : Bool := 56320 ≤ u && u ≤ 57343

example : isRetweet (some ("RT @a: hi").toList) = true := by decide
example : isRetweet (some ("rt@user_name : x").toList) = true := by decide
example : isRetweet (some ("@b thanks").toList) = false := by decide
example : isReply (some ("@b thanks").toList) = true := by decide
example : isReply (some ("Replying To you").toList) = true := by decide
example : classify (some ("hello world").toList) = Category.Original := by decide
example : archiveNameOk "sent-tweets-2025-01-02T03-04-05.json" = true := by decide
example : archiveNameOk "sent-tweets.json" = false := by decide
example : archiveNameOk "sent-tweets-2025-01-02T03-04-05.json.bak" = false := by decide

/-! ## Classifier lemmas -/

theorem isWordUs_eq (c : Char) : isWordUs c = isWordChar c := by
  cases hd : decide (c = '_') <;>
    simp [isWordUs, isWordChar, hd, Bool.or_assoc]

theorem wordUsPlus_eq : wordUsPlus = wordPlus := by
  have hf : isWordUs = isWordChar := funext isWordUs_eq
  funext cs
  cases cs with
  | nil => rfl
  | cons c rest => simp [wordUsPlus, wordPlus, hf]

theorem wsStar_of_not_ws (c : Char) (r : List Char) (h : jsWs c = false) :
    wsStar (c :: r) = c :: r := by
  simp [wsStar, List.dropWhile_cons, h]

theorem wsStar_of_ws (c : Char) (r : List Char) (h : jsWs c = true) :
    wsStar (c :: r) = wsStar r := by
  simp [wsStar, List.dropWhile_cons, h]

theorem colon_not_ws : jsWs ':' = false := by decide

/-- `^…:` implies `^…\s*:` : a head colon is untouched by `\s*`. -/
theorem colon_ws_eq (r : List Char) :
    (colonHead r || wsHead r) = (colonHead (wsStar r) || wsHead r) := by
  cases r with
  | nil => rfl
  | cons c t =>
    by_cases hc : jsWs c = true
    · simp [wsHead, hc]
    · rw [wsStar_of_not_ws c t (by simpa using hc)]

theorem colon_ws_absorb (r : List Char) :
    (colonHead r || (colonHead (wsStar r) || wsHead r)) =
      (colonHead (wsStar r) || wsHead r) := by
  rw [← colon_ws_eq r]
  cases h : colonHead r <;> simp [h]

theorem wsStar_of_colon (r : List Char) (h : colonHead r = true) : wsStar r = r := by
  cases r with
  | nil => simp [colonHead] at h
  | cons c t =>
    have hc : c = ':' := by simpa [colonHead] using h
    subst hc
    exact wsStar_of_not_ws ':' t (by decide)

theorem wsStar_of_not_wsHead (r : List Char) (h : wsHead r = false) : wsStar r = r := by
  cases r with
  | nil => rfl
  | cons c t => exact wsStar_of_not_ws c t (by simpa [wsHead] using h)

/-- The disjunction of the eight source retweet patterns agrees with the
specification's single retweet-attribution pattern on every string. -/
theorem rtPats_eq_spec (cs : List Char) :
    (rtPat1 cs || rtPat2 cs || rtPat3 cs || rtPat4 cs ||
     rtPat5 cs || rtPat6 cs || rtPat7 cs || rtPat8 cs) = rtSpecPattern cs := by
  simp only [rtPat1, rtPat2, rtPat3, rtPat4, rtPat5, rtPat6, rtPat7, rtPat8,
    rtSpecPattern, wordUsPlus_eq]
  cases hRT : matchRT cs with
  | none => simp
  | some r =>
    cases r with
    | nil => simp [wsStar, atHead, wsPlus]
    | cons c r2 =>
      cases hc : jsWs c with
      | true =>
        have h1 := wsStar_of_ws c r2 hc
        have h2 : wsPlus (c :: r2) = some (wsStar r2) := by simp [wsPlus, hc, wsStar]
        simp only [Option.map_some', Option.some_bind, h1, h2]
        cases hm : (atHead (wsStar r2)).bind wordPlus with
        | none => simp [hm]
        | some r3 =>
          simp only [hm]
          cases hcol : colonHead r3 with
          | true => simp [hcol, wsStar_of_colon r3 hcol]
          | false =>
            cases hws : wsHead r3 with
            | true => simp [hcol, hws]
            | false => simp [hcol, hws, wsStar_of_not_wsHead r3 hws]
      | false =>
        have h1 := wsStar_of_not_ws c r2 hc
        have h2 : wsPlus (c :: r2) = none := by simp [wsPlus, hc]
        simp only [Option.map_some', Option.some_bind, Option.none_bind, h1, h2]
        cases hm : (atHead (c :: r2)).bind wordPlus with
        | none => simp [hm]
        | some r3 =>
          simp only [hm]
          cases hcol : colonHead r3 with
          | true => simp [hcol, wsStar_of_colon r3 hcol]
          | false =>
            cases hws : wsHead r3 with
            | true => simp [hcol, hws]
            | false => simp [hcol, hws, wsStar_of_not_wsHead r3 hws]

theorem classify_eq_retweet (t : Option (List Char)) :
    classify t = Category.Retweet ↔ isRetweet t = true := by
  unfold classify
  cases h : isRetweet t with
  | true => simp
  | false =>
    cases h2 : isReply t with
    | true => simp
    | false => simp

theorem classify_eq_reply (t : Option (List Char)) :
    classify t = Category.Reply ↔ (isRetweet t = false ∧ isReply t = true) := by
  unfold classify
  cases h : isRetweet t with
  | true => simp
  | false =>
    cases h2 : isReply t with
    | true => simp
    | false => simp

theorem classify_eq_original (t : Option (List Char)) :
    classify t = Category.Original ↔ (isRetweet t = false ∧ isReply t = false) := by
  unfold classify
  cases h : isRetweet t with
  | true => simp
  | false =>
    cases h2 : isReply t with
    | true => simp
    | false => simp

theorem isRetweet_some_eq (t : List Char) :
    isRetweet (some t) = rtSpecPattern (jsTrim t) := by
  cases t with
  | nil => decide
  | cons a l =>
    have h := rtPats_eq_spec (jsTrim (a :: l))
    simpa [isRetweet] using h

theorem rpPats_eq (cs : List Char) :
    (rpPat1 cs || rpPat2 cs || rpPat3 cs || rpPat4 cs) = rpPat1 cs := by
  simp only [rpPat1, rpPat2, rpPat3, rpPat4, wordUsPlus_eq]
  cases hm : (atHead cs).bind wordPlus with
  | none => simp [hm]
  | some r => simp [hm]

theorem isReply_some_eq (t : List Char) :
    isReply (some t) = replySpecCond t := by
  cases t with
  | nil => decide
  | cons a l =>
    have h := rpPats_eq (jsTrim (a :: l))
    simp [isReply, replySpecCond, rpPat1] at h ⊢
    rw [h]

/-! ## Claim theorems: classifier -/

/-- C2: for every text, the classifier returns Retweet exactly when the
trimmed text, case-insensitively, begins with the token `RT`, optionally
followed by whitespace, then an `@handle` of word characters, then either
a colon optionally surrounded by whitespace or at least one trailing
whitespace character; all the documented surface variants classify as
Retweet, and missing or empty text never classifies as Retweet. -/
theorem c2_retweet_classification :
    (∀ t : List Char,
        classify (some t) = Category.Retweet ↔ rtSpecPattern (jsTrim t) = true) ∧
    classify none ≠ Category.Retweet ∧ classify (some []) ≠ Category.Retweet ∧
    classify (some (("RT @user: hello").toList)) = Category.Retweet ∧
    classify (some (("RT@user: hello").toList)) = Category.Retweet ∧
    classify (some (("rt @user : hello").toList)) = Category.Retweet ∧
    classify (some (("rT @user_name hello").toList)) = Category.Retweet ∧
    classify (some (("RT @user hello").toList)) = Category.Retweet := by
  refine ⟨fun t => ?_, by decide, by decide, by decide, by decide, by decide,
    by decide, by decide⟩
  rw [classify_eq_retweet, isRetweet_some_eq]

/-- C3: for every text not classified Retweet, the classifier returns
Reply exactly when the trimmed text begins with an `@handle` mention or
the lowercased text contains one of the reply-indicator substrings;
otherwise the record is Original; Retweet takes precedence over Reply;
and missing or empty text never classifies as Reply. -/
theorem c3_reply_classification :
    (∀ t : List Char, classify (some t) ≠ Category.Retweet →
        (classify (some t) = Category.Reply ↔ replySpecCond t = true)) ∧
    (∀ t : Option (List Char), isRetweet t = true → classify t = Category.Retweet) ∧
    (∀ t : Option (List Char), isRetweet t = false → isReply t = false →
        classify t = Category.Original) ∧
    classify none ≠ Category.Reply ∧ classify (some []) ≠ Category.Reply := by
  refine ⟨fun t h => ?_, fun t h => ?_, fun t h1 h2 => ?_, by decide, by decide⟩
  · have hrt : isRetweet (some t) = false := by
      cases hx : isRetweet (some t) with
      | true => exact absurd (classify_eq_retweet (some t) |>.mpr hx) h
      | false => rfl
    rw [classify_eq_reply, isReply_some_eq]
    simp [hrt]
  · simp [classify, h]
  · simp [classify, h1, h2]

/-- C3 witness: `"@b thanks"` is not a retweet and classifies as Reply,
matching the spec-side condition. -/
theorem c3_reply_classification_witness :
    classify (some (("@b thanks").toList)) = Category.Reply :=
  (c3_reply_classification.1 (("@b thanks").toList) (by decide)).mpr (by decide)

/-! ## Orchestrator filter lemmas -/

theorem mem_filterNewTweets (sent : List String) (records : List FetchedRecord)
    (r : FetchedRecord) :
    r ∈ filterNewTweets sent records ↔
      (r ∈ records ∧ isRetweet r.text = false ∧ isReply r.text = false ∧
       textTruthy r.text = true ∧ r.id ∉ sent) := by
  unfold filterNewTweets
  rw [List.mem_filter]
  refine and_congr_right fun _ => ?_
  cases h1 : isRetweet r.text with
  | true => simp [h1]
  | false =>
    cases h2 : isReply r.text with
    | true => simp [h2]
    | false => simp [h2, and_comm]

theorem mem_markSent (sent : List String) (id a : String) :
    a ∈ markSent sent id ↔ (a ∈ sent ∨ a = id) := by
  unfold markSent
  split
  · rename_i h
    constructor
    · exact Or.inl
    · rintro (h1 | rfl)
      · exact h1
      · exact h
  · simp

theorem mem_markBatchSent (batch : List FetchedRecord) (sent : List String) (a : String) :
    a ∈ markBatchSent sent batch ↔ (a ∈ sent ∨ ∃ r ∈ batch, r.id = a) := by
  induction batch generalizing sent with
  | nil => simp [markBatchSent]
  | cons b bs ih =>
    show a ∈ markBatchSent (markSent sent b.id) bs ↔ _
    rw [ih, mem_markSent]
    constructor
    · rintro ((h | h) | ⟨r, hr, hid⟩)
      · exact Or.inl h
      · exact Or.inr ⟨b, List.mem_cons_self b bs, h.symm⟩
      · exact Or.inr ⟨r, List.mem_cons_of_mem b hr, hid⟩
    · rintro (h | ⟨r, hr, hid⟩)
      · exact Or.inl (Or.inl h)
      · rcases List.mem_cons.mp hr with rfl | hr2
        · exact Or.inl (Or.inr hid.symm)
        · exact Or.inr ⟨r, hr2, hid⟩

/-! ## Claim theorems: notification candidates and dedup -/

/-- C1: a fetched record is in the notification batch iff its category is
Original, its text is present and non-empty, and its id is not in the
sent set; on the documented three-record scenario with an empty sent set
exactly the record with id 3 is in the batch. -/
theorem c1_notification_candidates :
    (∀ (records : List FetchedRecord) (sent : List String) (r : FetchedRecord),
        r ∈ filterNewTweets sent records ↔
          (r ∈ records ∧ classify r.text = Category.Original ∧
           textTruthy r.text = true ∧ r.id ∉ sent)) ∧
    filterNewTweets []
        [⟨"1", some (("RT @a: hi").toList)⟩, ⟨"2", some (("@b thanks").toList)⟩,
         ⟨"3", some (("hello world").toList)⟩] =
      [⟨"3", some (("hello world").toList)⟩] := by
  refine ⟨fun records sent r => ?_, by decide⟩
  rw [mem_filterNewTweets, classify_eq_original]
  tauto

/-- C1 witness: the scenario instance of the candidate characterization. -/
theorem c1_notification_candidates_witness :
    (FetchedRecord.mk "3" (some (("hello world").toList)) ∈
        filterNewTweets [] [FetchedRecord.mk "3" (some (("hello world").toList))]) ↔
      (FetchedRecord.mk "3" (some (("hello world").toList)) ∈
          [FetchedRecord.mk "3" (some (("hello world").toList))] ∧
       classify (some (("hello world").toList)) = Category.Original ∧
       textTruthy (some (("hello world").toList)) = true ∧ "3" ∉ ([] : List String)) :=
  c1_notification_candidates.1 [FetchedRecord.mk "3" (some (("hello world").toList))] []
    (FetchedRecord.mk "3" (some (("hello world").toList)))

/-- C4: marking an id sent is idempotent, and after one cycle marks the
batch sent, a second cycle over the same records dispatches no record with
the same id again. -/
theorem c4_single_dispatch (records : List FetchedRecord) (sent : List String)
    (r : FetchedRecord) (hmem : r ∈ filterNewTweets sent records) :
    markSent (markSent sent r.id) r.id = markSent sent r.id ∧
    r.id ∈ markBatchSent sent (filterNewTweets sent records) ∧
    ∀ r2 ∈ filterNewTweets (markBatchSent sent (filterNewTweets sent records)) records,
      r2.id ≠ r.id := by
  have hbatch : r.id ∈ markBatchSent sent (filterNewTweets sent records) :=
    (mem_markBatchSent _ sent r.id).mpr (Or.inr ⟨r, hmem, rfl⟩)
  refine ⟨?_, hbatch, ?_⟩
  · have h : r.id ∈ markSent sent r.id := (mem_markSent sent r.id r.id).mpr (Or.inr rfl)
    rw [markSent, if_pos h]
  · intro r2 h2 heq
    have hnot := ((mem_filterNewTweets _ records r2).mp h2).2.2.2.2
    exact hnot (heq ▸ hbatch)

/-- C4 witness: two cycles over the single Original record with id 3. -/
theorem c4_single_dispatch_witness :
    markSent (markSent [] "3") "3" = markSent [] "3" ∧
    "3" ∈ markBatchSent []
        (filterNewTweets [] [FetchedRecord.mk "3" (some (("hello world").toList))]) := by
  have h := c4_single_dispatch [FetchedRecord.mk "3" (some (("hello world").toList))] []
      (FetchedRecord.mk "3" (some (("hello world").toList))) (by decide)
  exact ⟨h.1, h.2.1⟩

/-! ## SentTracker lemmas -/

theorem rotate_mainFile (timestamp : String) (fs : FSState) (fd : FileData)
    (hmain : fs.mainFile = some fd) :
    rotateSentTweetsFile timestamp fs =
      ⟨none, (fs.archives ++ [archiveFileName timestamp]).filter fun f =>
        decide (f ∉ (sortNames ((fs.archives ++ [archiveFileName timestamp]).filter
          archiveNameOk)).reverse.drop 5)⟩ := by
  unfold rotateSentTweetsFile
  rw [hmain]

theorem load_rotation (timestamp : String) (now : Int) (fs : FSState) (fd : FileData)
    (hmain : fs.mainFile = some fd) (hsz : rotationThresholdBytes < fd.size) :
    loadSentTweets timestamp now fs = ([], rotateSentTweetsFile timestamp fs) := by
  simp only [loadSentTweets, hmain, if_pos hsz]
  rw [rotate_mainFile timestamp fs fd hmain]

theorem load_parse_error (timestamp : String) (now : Int) (fs : FSState)
    (fd : FileData) (msg : String) (hmain : fs.mainFile = some fd)
    (hsz : ¬ rotationThresholdBytes < fd.size) (hparse : fd.parse = Except.error msg) :
    loadSentTweets timestamp now fs = ([], fs) := by
  simp only [loadSentTweets, hmain, if_neg hsz, hparse]

theorem load_parse_ok (timestamp : String) (now : Int) (fs : FSState)
    (fd : FileData) (entries : List SentEntry) (hmain : fs.mainFile = some fd)
    (hsz : ¬ rotationThresholdBytes < fd.size) (hparse : fd.parse = Except.ok entries) :
    loadSentTweets timestamp now fs =
      ((entries.filter fun e => decide (now - retentionMs < e.sentAt)).map
        fun e => e.recordId, fs) := by
  simp only [loadSentTweets, hmain, if_neg hsz, hparse]

/-! ## Claim theorems: retention and corruption recovery -/

/-- C5: an id whose only persisted entries have `sentAt` older than the
six-hour retention window is never in the in-memory sent set after a
reload, so it never influences dedup decisions. -/
theorem c5_retention_window (timestamp : String) (now : Int) (fs : FSState)
    (fd : FileData) (entries : List SentEntry) (id : String)
    (hmain : fs.mainFile = some fd) (hparse : fd.parse = Except.ok entries)
    (hold : ∀ e ∈ entries, e.recordId = id → e.sentAt < now - retentionMs) :
    id ∉ (loadSentTweets timestamp now fs).1 := by
  intro hmem
  by_cases hsz : rotationThresholdBytes < fd.size
  · rw [load_rotation timestamp now fs fd hmain hsz] at hmem
    simp at hmem
  · rw [load_parse_ok timestamp now fs fd entries hmain hsz hparse] at hmem
    simp only [List.mem_map, List.mem_filter] at hmem
    obtain ⟨e, ⟨hee, hrec⟩, hid⟩ := hmem
    have h1 : now - retentionMs < e.sentAt := of_decide_eq_true hrec
    have h2 := hold e hee hid
    omega

/-- C5 witness: a single entry aged beyond the window is not loaded. -/
theorem c5_retention_window_witness :
    "x" ∉ (loadSentTweets "ts" 100000000
      ⟨some ⟨64, Except.ok [SentEntry.mk "x" 0]⟩, []⟩).1 :=
  c5_retention_window "ts" 100000000 ⟨some ⟨64, Except.ok [SentEntry.mk "x" 0]⟩, []⟩
    ⟨64, Except.ok [SentEntry.mk "x" 0]⟩ [SentEntry.mk "x" 0] "x" rfl rfl
    (by intro e he _; simp at he; subst he; decide)

/-- C7: when reading or parsing the persisted sent-state fails, the load
recovers by continuing with an empty in-memory set (the model of the
`catch` branch is total, so no error escapes startup). -/
theorem c7_corrupt_state_recovery (timestamp : String) (now : Int) (fs : FSState)
    (fd : FileData) (msg : String)
    (hmain : fs.mainFile = some fd) (hparse : fd.parse = Except.error msg) :
    (loadSentTweets timestamp now fs).1 = [] := by
  by_cases hsz : rotationThresholdBytes < fd.size
  · rw [load_rotation timestamp now fs fd hmain hsz]
  · rw [load_parse_error timestamp now fs fd msg hmain hsz hparse]

/-- C7 witness: a malformed file yields the empty set. -/
theorem c7_corrupt_state_recovery_witness :
    (loadSentTweets "ts" 0 ⟨some ⟨64, Except.error "Unexpected token"⟩, []⟩).1 = [] :=
  c7_corrupt_state_recovery "ts" 0 ⟨some ⟨64, Except.error "Unexpected token"⟩, []⟩
    ⟨64, Except.error "Unexpected token"⟩ "Unexpected token" rfl rfl

theorem insertSorted_perm (a : String) (l : List String) :
    List.Perm (insertSorted a l) (a :: l) := by
  induction l with
  | nil => exact List.Perm.refl _
  | cons b bs ih =>
    unfold insertSorted
    split
    · exact List.Perm.refl _
    · exact (List.Perm.cons b ih).trans (List.Perm.swap a b bs)

theorem sortNames_perm (l : List String) : List.Perm (sortNames l) l := by
  induction l with
  | nil => exact List.Perm.refl _
  | cons a as ih =>
    exact (insertSorted_perm a (sortNames as)).trans (List.Perm.cons a ih)

/-- After unlinking everything past the five most recent matching names,
at most five matching names survive (for a directory without duplicate
names). -/
theorem kept_matching_le_five (dir : List String) (p : String → Bool)
    (hdir : dir.Nodup) :
    ((dir.filter fun f => decide (f ∉ (sortNames (dir.filter p)).reverse.drop 5)).filter
      p).length ≤ 5 := by
  have hsub : (dir.filter fun f =>
        decide (f ∉ (sortNames (dir.filter p)).reverse.drop 5)).filter p ⊆
      (sortNames (dir.filter p)).reverse.take 5 := by
    intro f hf
    have hfok := (List.mem_filter.mp hf).2
    have hf1 := (List.mem_filter.mp hf).1
    have hfd := (List.mem_filter.mp hf1).1
    have hnr : f ∉ (sortNames (dir.filter p)).reverse.drop 5 :=
      of_decide_eq_true (List.mem_filter.mp hf1).2
    have hmem : f ∈ sortNames (dir.filter p) :=
      ((sortNames_perm _).mem_iff).mpr (List.mem_filter.mpr ⟨hfd, hfok⟩)
    have hrev : f ∈ (sortNames (dir.filter p)).reverse := List.mem_reverse.mpr hmem
    rw [← List.take_append_drop 5 ((sortNames (dir.filter p)).reverse)] at hrev
    rcases List.mem_append.mp hrev with h | h
    · exact h
    · exact absurd h hnr
  have hnd : ((dir.filter fun f =>
        decide (f ∉ (sortNames (dir.filter p)).reverse.drop 5)).filter p).Nodup :=
    List.Nodup.filter _ (List.Nodup.filter _ hdir)
  calc ((dir.filter fun f =>
        decide (f ∉ (sortNames (dir.filter p)).reverse.drop 5)).filter p).length
      ≤ ((sortNames (dir.filter p)).reverse.take 5).length :=
        (List.subperm_of_subset hnd hsub).length_le
    _ ≤ 5 := by
        rw [List.length_take]
        exact min_le_left 5 _

/-- C6: once the persisted file exceeds the 10 MiB threshold, the next
load renames it away (so the in-memory set for the cycle is empty and the
archived data is not replayed), the only possibly-new file in the
directory is the one timestamped archive, only files matching the archive
naming convention are deleted by the cleanup, and afterwards at most five
matching archives remain. -/
theorem c6_rotation (timestamp : String) (now : Int) (fs : FSState) (fd : FileData)
    (hmain : fs.mainFile = some fd) (hsz : rotationThresholdBytes < fd.size)
    (hnodup : fs.archives.Nodup) (hfresh : archiveFileName timestamp ∉ fs.archives) :
    (loadSentTweets timestamp now fs).1 = [] ∧
    (loadSentTweets timestamp now fs).2.mainFile = none ∧
    (∀ f ∈ (loadSentTweets timestamp now fs).2.archives,
        f ∈ fs.archives ∨ f = archiveFileName timestamp) ∧
    (∀ f ∈ fs.archives ++ [archiveFileName timestamp],
        f ∉ (loadSentTweets timestamp now fs).2.archives → archiveNameOk f = true) ∧
    ((loadSentTweets timestamp now fs).2.archives.filter archiveNameOk).length ≤ 5 := by
  rw [load_rotation timestamp now fs fd hmain hsz, rotate_mainFile timestamp fs fd hmain]
  refine ⟨rfl, rfl, ?_, ?_, ?_⟩
  · intro f hf
    have hfd := (List.mem_filter.mp hf).1
    rcases List.mem_append.mp hfd with h | h
    · exact Or.inl h
    · exact Or.inr (List.mem_singleton.mp h)
  · intro f hfd hnk
    by_cases hrm : f ∈ (sortNames ((fs.archives ++ [archiveFileName timestamp]).filter
        archiveNameOk)).reverse.drop 5
    · have h1 : f ∈ (sortNames ((fs.archives ++ [archiveFileName timestamp]).filter
          archiveNameOk)).reverse := List.drop_subset 5 _ hrm
      have h2 : f ∈ sortNames ((fs.archives ++ [archiveFileName timestamp]).filter
          archiveNameOk) := List.mem_reverse.mp h1
      have h3 := ((sortNames_perm _).mem_iff).mp h2
      exact (List.mem_filter.mp h3).2
    · exact absurd (List.mem_filter.mpr ⟨hfd, decide_eq_true hrm⟩) hnk
  · have hdir : (fs.archives ++ [archiveFileName timestamp]).Nodup := by
      rw [List.nodup_append]
      refine ⟨hnodup, List.nodup_singleton _, ?_⟩
      intro a ha hb
      rw [List.mem_singleton] at hb
      subst hb
      exact hfresh ha
    exact kept_matching_le_five (fs.archives ++ [archiveFileName timestamp])
      archiveNameOk hdir

/-- C6 witness: a 10 MiB + 1 byte file with six stale archives rotates to
one fresh archive, loads an empty set, and leaves at most five matching
archives. -/
theorem c6_rotation_witness :
    (loadSentTweets "2025-06-01T00-00-00" 0
      ⟨some ⟨10485761, Except.ok []⟩, ["sent-tweets-2025-01-01T00-00-00.json"]⟩).1 = [] ∧
    ((loadSentTweets "2025-06-01T00-00-00" 0
      ⟨some ⟨10485761, Except.ok []⟩,
        ["sent-tweets-2025-01-01T00-00-00.json"]⟩).2.archives.filter
          archiveNameOk).length ≤ 5 := by
  have h := c6_rotation "2025-06-01T00-00-00" 0
    ⟨some ⟨10485761, Except.ok []⟩, ["sent-tweets-2025-01-01T00-00-00.json"]⟩
    ⟨10485761, Except.ok []⟩ rfl (by decide) (by decide) (by decide)
  exact ⟨h.1, h.2.2.2.2⟩

/-! ## TelegramService lemmas -/

theorem mem_addChatId (st : TgState) (c a : Int) :
    a ∈ (addChatId st c).chatIds ↔ (a ∈ st.chatIds ∨ a = c) := by
  unfold addChatId
  split
  · rename_i h
    constructor
    · exact Or.inl
    · rintro (h1 | rfl)
      · exact h1
      · exact h
  · simp

theorem mem_updateChatIds (discovered : List Int) (st : TgState) (a : Int) :
    a ∈ (updateChatIds discovered st).chatIds ↔ (a ∈ st.chatIds ∨ a ∈ discovered) := by
  induction discovered generalizing st with
  | nil => simp [updateChatIds]
  | cons d ds ih =>
    show a ∈ (updateChatIds ds (addChatId st d)).chatIds ↔ _
    rw [ih, mem_addChatId, List.mem_cons]
    exact or_assoc

theorem not_mem_send (outcome : Int → SendOutcome) (discovered : List Int)
    (tweets : List FetchedRecord) (st : TgState) (e : Int)
    (hst : e ∉ st.chatIds) (hd : e ∉ discovered) :
    e ∉ (sendTweetNotifications outcome discovered tweets st).chatIds := by
  unfold sendTweetNotifications
  split
  · exact hst
  · dsimp only
    split
    · intro hmem
      rcases (mem_updateChatIds discovered st e).mp hmem with h | h
      · exact hst h
      · exact hd h
    · intro hmem
      have h1 := (List.mem_filter.mp hmem).1
      rcases (mem_updateChatIds discovered st e).mp h1 with h | h
      · exact hst h
      · exact hd h

/-! ## Claim theorems: delivery outcomes -/

/-- C8: after a batch is dispatched, every record of the batch is added to
the sent set and the tracker is flushed with an entry for it, and both the
sent set and the flushed file are independent of the per-endpoint delivery
outcomes (the model of the per-endpoint try/catch is total, so no send
failure reaches the orchestrator). -/
theorem c8_batch_marked_sent (outcome outcome2 : Int → SendOutcome)
    (discovered : List Int) (now : Int) (records : List FetchedRecord)
    (sent : List String) (tg : TgState) (r : FetchedRecord)
    (hr : r ∈ filterNewTweets sent records) :
    r.id ∈ (sendNewTweets outcome discovered now records sent tg).1 ∧
    (∃ entries, (sendNewTweets outcome discovered now records sent tg).2.1 =
        some entries ∧ ∃ e ∈ entries, e.recordId = r.id) ∧
    (sendNewTweets outcome discovered now records sent tg).1 =
      (sendNewTweets outcome2 discovered now records sent tg).1 ∧
    (sendNewTweets outcome discovered now records sent tg).2.1 =
      (sendNewTweets outcome2 discovered now records sent tg).2.1 := by
  have hne : (filterNewTweets sent records).isEmpty = false := by
    simp [List.isEmpty_iff]
    exact List.ne_nil_of_mem hr
  have heq : ∀ oc : Int → SendOutcome,
      sendNewTweets oc discovered now records sent tg =
        (markBatchSent sent (filterNewTweets sent records),
         some (saveSentTweets now (markBatchSent sent (filterNewTweets sent records))),
         sendTweetNotifications oc discovered (filterNewTweets sent records) tg) := by
    intro oc
    unfold sendNewTweets
    simp [hne]
  rw [heq outcome, heq outcome2]
  have hidmem : r.id ∈ markBatchSent sent (filterNewTweets sent records) :=
    (mem_markBatchSent _ sent r.id).mpr (Or.inr ⟨r, hr, rfl⟩)
  refine ⟨hidmem, ⟨saveSentTweets now _, rfl, ⟨⟨r.id, now⟩, ?_, rfl⟩⟩, rfl, rfl⟩
  unfold saveSentTweets
  rw [List.mem_filter]
  refine ⟨List.mem_map.mpr ⟨r.id, hidmem, rfl⟩, decide_eq_true ?_⟩
  show now - retentionMs < now
  have hret : retentionMs = 21600000 := rfl
  omega

/-- C8 witness: the id-3 record is marked sent and flushed even when every
endpoint send fails. -/
theorem c8_batch_marked_sent_witness :
    "3" ∈ (sendNewTweets (fun _ => SendOutcome.transientError) [7] 0
      [FetchedRecord.mk "3" (some (("hello world").toList))] [] ⟨[7]⟩).1 :=
  (c8_batch_marked_sent (fun _ => SendOutcome.transientError)
    (fun _ => SendOutcome.delivered) [7] 0
    [FetchedRecord.mk "3" (some (("hello world").toList))] [] ⟨[7]⟩
    (FetchedRecord.mk "3" (some (("hello world").toList))) (by decide)).1

/-- C9: a send attempt answered with the permanent `ETELEGRAM` 403 signal
removes the endpoint from the registry, later fan-outs exclude it unless
it is rediscovered, and a transient failure leaves the endpoint in the
registry. -/
theorem c9_forbidden_endpoint_removed (outcome : Int → SendOutcome)
    (discovered : List Int) (tweets : List FetchedRecord) (st : TgState) (e : Int)
    (htweets : tweets ≠ []) (h403 : outcome e = SendOutcome.forbidden403) :
    e ∉ (sendTweetNotifications outcome discovered tweets st).chatIds ∧
    (∀ (outcome2 : Int → SendOutcome) (discovered2 : List Int)
        (tweets2 : List FetchedRecord), e ∉ discovered2 →
        e ∉ (sendTweetNotifications outcome2 discovered2 tweets2
              (sendTweetNotifications outcome discovered tweets st)).chatIds) ∧
    (∀ e2 : Int, outcome e2 = SendOutcome.transientError →
        e2 ∈ (updateChatIds discovered st).chatIds →
        e2 ∈ (sendTweetNotifications outcome discovered tweets st).chatIds) := by
  have hne : tweets.isEmpty = false := by simp [List.isEmpty_iff, htweets]
  have conj1 : e ∉ (sendTweetNotifications outcome discovered tweets st).chatIds := by
    unfold sendTweetNotifications
    simp only [hne, Bool.false_eq_true, if_false]
    split
    · rename_i hemp
      rw [List.isEmpty_iff.mp hemp]
      exact List.not_mem_nil e
    · intro hmem
      have h2 := (List.mem_filter.mp hmem).2
      rw [h403] at h2
      simp at h2
  refine ⟨conj1,
    fun outcome2 discovered2 tweets2 hnd => not_mem_send _ _ _ _ _ conj1 hnd, ?_⟩
  intro e2 ht hmem
  unfold sendTweetNotifications
  simp only [hne, Bool.false_eq_true, if_false]
  split
  · exact hmem
  · refine List.mem_filter.mpr ⟨hmem, decide_eq_true ?_⟩
    rw [ht]
    decide

/-! ## Formatter lemmas -/

theorem head?_dropWhile_not (p : Nat → Bool) (l : List Nat) :
    ∀ u, (l.dropWhile p).head? = some u → p u = false := by
  induction l with
  | nil => intro u h; simp at h
  | cons a t ih =>
    intro u h
    rw [List.dropWhile_cons] at h
    cases hp : p a with
    | true => rw [if_pos hp] at h; exact ih u h
    | false =>
      rw [if_neg (by simp [hp])] at h
      rw [List.head?_cons] at h
      injection h with h2
      rw [← h2]
      exact hp

theorem u16Trim_length_le (l : List Nat) : (u16Trim l).length ≤ l.length := by
  unfold u16Trim
  calc ((l.dropWhile u16Ws).reverse.dropWhile u16Ws).reverse.length
      = ((l.dropWhile u16Ws).reverse.dropWhile u16Ws).length := List.length_reverse _
    _ ≤ (l.dropWhile u16Ws).reverse.length := (List.dropWhile_sublist u16Ws).length_le
    _ = (l.dropWhile u16Ws).length := List.length_reverse _
    _ ≤ l.length := (List.dropWhile_sublist u16Ws).length_le

theorem u16Trim_getLast?_not_ws (l : List Nat) (u : Nat)
    (h : (u16Trim l).getLast? = some u) : u16Ws u = false := by
  unfold u16Trim at h
  rw [List.getLast?_reverse] at h
  exact head?_dropWhile_not u16Ws _ u h

theorem truncateText_length_le (txt : List Nat) :
    (truncateText txt 100).length ≤ 100 := by
  unfold truncateText
  split
  · assumption
  · calc (u16Trim (txt.take 100)).length
        ≤ (txt.take 100).length := u16Trim_length_le _
      _ ≤ 100 := by
          rw [List.length_take]
          exact min_le_left _ _

/-! ## Claim theorems: excerpt truncation -/

/-- C10 counterexample: an untruncated text of exactly 100 units still
receives the trailing marker; truncation of a well-formed surrogate pair
straddling the 100-unit boundary leaves a lone high surrogate at the
excerpt end; and a short text keeps its trailing whitespace untrimmed. -/
theorem c10_truncation_counterexample :
    (truncateText (List.replicate 100 97) 100 = List.replicate 100 97 ∧
     excerptWithMarker (some (List.replicate 100 97)) =
       List.replicate 100 97 ++ [46, 46, 46]) ∧
    (isHighSurrogate 55357 = true ∧ isLowSurrogate 56832 = true ∧
     truncateText (List.replicate 99 97 ++ [55357, 56832]) 100 =
       List.replicate 99 97 ++ [55357]) ∧
    excerptWithMarker (some [97, 32]) = [97, 32] := by
  decide

/-- C10, amended: the excerpt never exceeds 100 UTF-16 units; when the
text is longer than 100 units the excerpt is the first 100 units trimmed,
hence carries no trailing whitespace; texts of at most 100 units are
rendered verbatim (untrimmed); the marker appears exactly when the
processed excerpt has length 100 — which includes untruncated 100-unit
texts and excludes truncated texts whose trimmed excerpt fell below 100
units — and the 100-unit cut ignores surrogate pairing. -/
theorem c10_truncation_amended (txt : List Nat) :
    (truncateText txt 100).length ≤ 100 ∧
    (100 < txt.length → truncateText txt 100 = u16Trim (txt.take 100)) ∧
    (100 < txt.length → ∀ u, (truncateText txt 100).getLast? = some u →
        u16Ws u = false) ∧
    (txt.length ≤ 100 → truncateText txt 100 = txt) ∧
    excerptWithMarker (some txt) =
      truncateText txt 100 ++
        (if (truncateText txt 100).length = 100 then [46, 46, 46] else []) := by
  have htrunc : 100 < txt.length → truncateText txt 100 = u16Trim (txt.take 100) := by
    intro h
    unfold truncateText
    rw [if_neg (by omega)]
  refine ⟨truncateText_length_le txt, htrunc, ?_, ?_, ?_⟩
  · intro h u hu
    rw [htrunc h] at hu
    exact u16Trim_getLast?_not_ws _ u hu
  · intro h
    unfold truncateText
    rw [if_pos h]
  · unfold excerptWithMarker
    simp only [Option.getD_some]
    congr 1
    have hle := truncateText_length_le txt
    by_cases h : (truncateText txt 100).length = 100
    · rw [if_pos (by omega), if_pos h]
    · rw [if_neg (by omega), if_neg h]

/-- C10 witness: a 101-unit text is cut to its first 100 units and
trimmed. -/
theorem c10_truncation_amended_witness :
    truncateText (List.replicate 101 97) 100 =
      u16Trim ((List.replicate 101 97).take 100) :=
  (c10_truncation_amended (List.replicate 101 97)).2.1 (by decide)

/-- C2 witness: the characterization instantiated at the scenario retweet
text. -/
theorem c2_retweet_classification_witness :
    classify (some (("RT @a: hi").toList)) = Category.Retweet ↔
      rtSpecPattern (jsTrim (("RT @a: hi").toList)) = true :=
  c2_retweet_classification.1 (("RT @a: hi").toList)

/-- C9 witness: endpoint 5 answers 403 and is removed from the registry. -/
theorem c9_forbidden_endpoint_removed_witness :
    (5 : Int) ∉ (sendTweetNotifications
      (fun c => if c = (5 : Int) then SendOutcome.forbidden403
        else SendOutcome.transientError)
      [5, 6] [FetchedRecord.mk "3" (some (("hello world").toList))]
      ⟨[5, 6]⟩).chatIds :=
  (c9_forbidden_endpoint_removed
    (fun c => if c = (5 : Int) then SendOutcome.forbidden403
      else SendOutcome.transientError)
    [5, 6] [FetchedRecord.mk "3" (some (("hello world").toList))]
    ⟨[5, 6]⟩ 5 (by decide) (by decide)).1
